import Mathlib

/-!
Verification of the chunk-boundary and overlap-injection subsystem of
`ingenious/chunk/strategy/langchain_semantic.py`.

Shallow embedding conventions:
* Chunk content is a list of units (`List α`).  The Unit Oracle of the design
  (character counting/slicing, or token encode/slice/decode under a named
  encoding) is abstracted by the unit type `α`: the characters path takes
  `α = Char`, the tokens path takes `α` = token ids of the encoding.
* Metadata is an association list from string keys to string values; the
  claims only ever compare metadata for equality, so the value type is
  immaterial.
* External collaborators that the source file merely constructs and calls
  (the langchain splitters, the embedding clients, the repository class
  `RecursiveTokenSplitter`) are modelled either as inert records of the
  constructor arguments the source passes them, or as function parameters
  standing for their splitting behaviour.
-/

namespace Ingenious

/-- Metadata mapping attached to documents and chunks. -/
abbrev Meta := List (String × String)

/-- Document as in `langchain_core.documents.Document`: content plus opaque
metadata.  Content is a list of units, see the module docstring. -/
structure Document (α : Type) where
  page_content : List α
  metadata : Meta
deriving DecidableEq

/-- Unit in which chunk sizes and overlap are measured (`cfg.overlap_unit`). -/
inductive OverlapUnit where
  | characters
  | tokens
deriving DecidableEq

/-- Configuration consumed read-only by the factory (fields per the design:
chunk_size, chunk_overlap, overlap_unit, encoding_name, separators,
embed_model, azure_openai_deployment). -/
structure ChunkConfig where
  chunk_size : Nat
  chunk_overlap : Nat
  overlap_unit : OverlapUnit
  encoding_name : String
  separators : List String
  embed_model : Option String
  azure_openai_deployment : Option String
deriving DecidableEq

/-- Python truthiness of an `Optional[str]` value: `None` and `""` are falsy. -/
def strTruthy : Option String → Bool
  | none => false
  | some s => s ≠ ""

/-- Python `a or b` for `a : Optional[str]`: yields `b` when `a` is falsy. -/
def strOr (a : Option String) (b : String) : String :=
  match a with
  | none => b
  | some s => if s = "" then b else s

/-- Embedding backend, modelled as an inert record of the arguments the
source passes to the langchain constructors. -/
inductive Embeddings where
  | AzureOpenAIEmbeddings (model : String) (azure_deployment : String)
  | OpenAIEmbeddings (model : String)
deriving DecidableEq

/-- Embedding of `_select_embeddings` (source lines 54-62): pick the model
name with a Python `or` default, then branch on the truthiness of
`cfg.azure_openai_deployment`. -/
def _select_embeddings (cfg : ChunkConfig) : Embeddings :=
  let model_name := strOr cfg.embed_model "text-embedding-3-small"
  match cfg.azure_openai_deployment with
  | some d =>
      if d = "" then Embeddings.OpenAIEmbeddings model_name
      else Embeddings.AzureOpenAIEmbeddings model_name d
  | none => Embeddings.OpenAIEmbeddings model_name

/-- Last `n` elements of a list; the whole list when it has fewer than `n`. -/
def lastN (n : Nat) (xs : List α) : List α :=
  xs.drop (xs.length - n)

/-- Modelled from the spec: `inject_overlap` from
`ingenious/chunk/utils/overlap.py`, which the source imports but which is not
among the sources.  Per the design (Overlap Injector): `overlap = 0` is the
identity; otherwise the first chunk is unchanged and every later chunk is the
last `overlap` units of its pre-overlap predecessor (the whole predecessor
when it is shorter) prepended to its own content; metadata is preserved;
windows are always taken from the original pre-overlap predecessor. -/
def inject_overlap (chunks : List (Document α)) (overlap : Nat) :
    List (Document α) :=
  if overlap = 0 then chunks
  else
    match chunks with
    | [] => []
    | c :: rest =>
        c :: List.zipWith
          (fun prev cur =>
            { page_content := lastN overlap prev.page_content ++ cur.page_content,
              metadata := cur.metadata })
          (c :: rest) rest

/-- Embedding of `SemanticOverlapChunker` (source lines 69-124): wraps a base
splitter, an overlap amount, an encoding name and a unit.  The base splitter
is modelled by its `split_documents` behaviour; the encoding name and unit
select the Unit Oracle, which the unit type `α` abstracts. -/
structure SemanticOverlapChunker (α : Type) where
  _base : List (Document α) → List (Document α)
  _overlap : Nat
  _enc_name : String
  _unit : OverlapUnit

/-- Embedding of `SemanticOverlapChunker.split_documents` (source lines
85-92): split with the base splitter, then post-process with
`inject_overlap`. -/
def SemanticOverlapChunker.split_documents (c : SemanticOverlapChunker α)
    (docs : List (Document α)) : List (Document α) :=
  inject_overlap (c._base docs) c._overlap

/-- Embedding of `SemanticOverlapChunker.split_text` (source lines 94-121):
wrap the text in a transient `Document` carrying `metadata or {}`, run
`split_documents`, and return either the documents or their contents. -/
def SemanticOverlapChunker.split_text (c : SemanticOverlapChunker α)
    (text : List α) (metadata : Option Meta) (return_docs : Bool) :
    Sum (List (List α)) (List (Document α)) :=
  let tmp_doc : Document α := { page_content := text, metadata := metadata.getD [] }
  let docs := c.split_documents [tmp_doc]
  if return_docs then Sum.inr docs
  else Sum.inl (docs.map (fun d => d.page_content))

/-- Constructor arguments of the repository class `RecursiveTokenSplitter`
(defined in `langchain_recursive.py`, outside the sources); its splitting
behaviour is abstracted as a function parameter where needed. -/
structure RecursiveTokenSplitter where
  encoding_name : String
  chunk_size : Nat
  chunk_overlap : Nat
  separators : List String
deriving DecidableEq

/-- Embedding of `_SafeSemantic` (source lines 131-154): a semantic splitter
(which may fail, hence `Except ε`) plus the deterministic backup splitter
built by `__init__`. -/
structure _SafeSemantic (α ε : Type) where
  _semantic : List (Document α) → Except ε (List (Document α))
  _backup : List (Document α) → List (Document α)

/-- Embedding of `_SafeSemantic.__init__` (source lines 138-145): store the
semantic splitter and build the backup as a `RecursiveTokenSplitter` with the
same encoding_name, chunk_size and separators as the config and
chunk_overlap 0.  `rts` is the (external to this file) splitting behaviour of
`RecursiveTokenSplitter`, given its constructor arguments. -/
def _SafeSemantic.init (semantic : List (Document α) → Except ε (List (Document α)))
    (cfg : ChunkConfig)
    (rts : RecursiveTokenSplitter → List (Document α) → List (Document α)) :
    _SafeSemantic α ε :=
  { _semantic := semantic,
    _backup := rts
      { encoding_name := cfg.encoding_name,
        chunk_size := cfg.chunk_size,
        chunk_overlap := 0,
        separators := cfg.separators } }

/-- Embedding of `_SafeSemantic.split_documents` (source lines 147-150): run
the semantic splitter; on success keep its result when it has more than one
chunk, otherwise re-split with the backup; a raised error propagates. -/
def _SafeSemantic.split_documents (s : _SafeSemantic α ε)
    (docs : List (Document α)) : Except ε (List (Document α)) :=
  match s._semantic docs with
  | Except.error e => Except.error e
  | Except.ok out => if out.length > 1 then Except.ok out else Except.ok (s._backup docs)

/-- Constructor arguments the factory passes to `SemanticChunker`. -/
structure SemanticChunkerSpec where
  embeddings : Embeddings
  min_chunk_size : Nat
  breakpoint_threshold_amount : Nat
deriving DecidableEq

/-- Base splitter built by the factory, as an inert record of the
construction the source performs. -/
inductive SplitterSpec where
  | RecursiveCharacterTextSplitter (chunk_size : Nat) (chunk_overlap : Nat)
  | SafeSemanticOf (semantic : SemanticChunkerSpec) (backup : RecursiveTokenSplitter)
deriving DecidableEq

/-- The object returned by the factory: a `SemanticOverlapChunker` described
by its constructor arguments. -/
structure SemanticOverlapChunkerSpec where
  base : SplitterSpec
  overlap : Nat
  enc_name : String
  unit : OverlapUnit
deriving DecidableEq

/-- Embedding of the factory `create` (source lines 161-189).  External
constructors are modelled as inert records of the arguments the source passes
them; `//` is Nat division and `max(8, ...)` is `max 8 ...`. -/
def create (cfg : ChunkConfig) : SemanticOverlapChunkerSpec :=
  if cfg.overlap_unit = OverlapUnit.characters then
    { base := SplitterSpec.RecursiveCharacterTextSplitter cfg.chunk_size 0,
      overlap := cfg.chunk_overlap,
      enc_name := cfg.encoding_name,
      unit := cfg.overlap_unit }
  else
    { base := SplitterSpec.SafeSemanticOf
        { embeddings := _select_embeddings cfg,
          min_chunk_size := max 8 (cfg.chunk_size / 2),
          breakpoint_threshold_amount := cfg.chunk_size }
        { encoding_name := cfg.encoding_name,
          chunk_size := cfg.chunk_size,
          chunk_overlap := 0,
          separators := cfg.separators },
      overlap := cfg.chunk_overlap,
      enc_name := cfg.encoding_name,
      unit := cfg.overlap_unit }

/-- The configuration errors the design names. -/
inductive ConfigurationError where
  | overlap_ge_chunk_size
deriving DecidableEq

/-- Modelled from the spec: `ChunkConfig` validation (performed by
`ingenious/chunk/config.py`, which is not among the sources) rejects
`chunk_overlap >= chunk_size` with a `ConfigurationError` eagerly at
construction time. -/
def validateChunkConfig (cfg : ChunkConfig) : Except ConfigurationError ChunkConfig :=
  if cfg.chunk_size ≤ cfg.chunk_overlap then
    Except.error ConfigurationError.overlap_ge_chunk_size
  else Except.ok cfg

/-- Eager construction path: validate the configuration, then run the
factory; an invalid configuration yields an error and no object. -/
def createChecked (cfg : ChunkConfig) : Except ConfigurationError SemanticOverlapChunkerSpec :=
  (validateChunkConfig cfg).map create

/-! ### Concrete fixtures used by the witness theorems -/

/-- A chunker whose base splitter always yields two fixed chunks, with
overlap 2 in tokens. -/
def chunkerW : SemanticOverlapChunker Nat :=
  { _base := fun _ => [{ page_content := [1, 2, 3], metadata := [] },
                       { page_content := [4, 5], metadata := [] }],
    _overlap := 2,
    _enc_name := "cl100k_base",
    _unit := OverlapUnit.tokens }

/-- A chunker whose base splitter is the identity, with overlap 0. -/
def chunkerW0 : SemanticOverlapChunker Nat :=
  { _base := fun ds => ds,
    _overlap := 0,
    _enc_name := "cl100k_base",
    _unit := OverlapUnit.characters }

/-- A one-document input. -/
def docsW : List (Document Nat) := [{ page_content := [1, 2, 3, 4, 5], metadata := [] }]

/-- A semantic splitter that always succeeds with a single chunk. -/
def semanticW : List (Document Nat) → Except String (List (Document Nat)) :=
  fun _ => Except.ok [{ page_content := [9], metadata := [] }]

/-- A semantic splitter that always raises. -/
def semanticErrW : List (Document Nat) → Except String (List (Document Nat)) :=
  fun _ => Except.error "rate limit"

/-- A deterministic-splitter behaviour that records, in its output, the
chunk_overlap and chunk_size it was constructed with. -/
def rtsW : RecursiveTokenSplitter → List (Document Nat) → List (Document Nat) :=
  fun p _ => [{ page_content := [p.chunk_overlap, p.chunk_size], metadata := [] }]

/-- A token-unit configuration. -/
def cfgW : ChunkConfig :=
  { chunk_size := 128, chunk_overlap := 32, overlap_unit := OverlapUnit.tokens,
    encoding_name := "cl100k_base", separators := ["\n\n", "\n", " "],
    embed_model := some "m", azure_openai_deployment := none }

/-- A characters-unit configuration. -/
def cfgCharW : ChunkConfig :=
  { chunk_size := 100, chunk_overlap := 20, overlap_unit := OverlapUnit.characters,
    encoding_name := "cl100k_base", separators := ["\n\n"],
    embed_model := none, azure_openai_deployment := none }

/-- A tokens-unit configuration with no embedding overrides. -/
def cfgTokW : ChunkConfig :=
  { chunk_size := 100, chunk_overlap := 20, overlap_unit := OverlapUnit.tokens,
    encoding_name := "cl100k_base", separators := ["\n\n"],
    embed_model := none, azure_openai_deployment := none }

/-- An invalid configuration: overlap equals size. -/
def cfgBadW : ChunkConfig :=
  { chunk_size := 100, chunk_overlap := 100, overlap_unit := OverlapUnit.tokens,
    encoding_name := "cl100k_base", separators := ["\n\n"],
    embed_model := none, azure_openai_deployment := none }

/-- A configuration with a deployment and an explicit model. -/
def cfgAzW : ChunkConfig :=
  { chunk_size := 100, chunk_overlap := 20, overlap_unit := OverlapUnit.tokens,
    encoding_name := "cl100k_base", separators := ["\n\n"],
    embed_model := some "my-model", azure_openai_deployment := some "my-deploy" }

/-- A configuration with a deployment and no model. -/
def cfgAzDefW : ChunkConfig :=
  { chunk_size := 100, chunk_overlap := 20, overlap_unit := OverlapUnit.tokens,
    encoding_name := "cl100k_base", separators := ["\n\n"],
    embed_model := none, azure_openai_deployment := some "my-deploy" }

/-- A chunker whose base splitter emits two chunks carrying metadata, with
overlap 1. -/
def chunkerMW : SemanticOverlapChunker Nat :=
  { _base := fun _ => [{ page_content := [1], metadata := [("k", "v")] },
                       { page_content := [2], metadata := [("k", "v")] }],
    _overlap := 1,
    _enc_name := "cl100k_base",
    _unit := OverlapUnit.tokens }

/-! ### Helper lemmas about the Overlap Injector -/

theorem lastN_eq_ite (n : Nat) (xs : List α) :
    lastN n xs = if xs.length ≤ n then xs else xs.drop (xs.length - n) := by
  by_cases h : xs.length ≤ n
  · simp [lastN, if_pos h, Nat.sub_eq_zero_of_le h]
  · simp [lastN, if_neg h]

theorem inject_overlap_length (chunks : List (Document α)) (k : Nat) :
    (inject_overlap chunks k).length = chunks.length := by
  unfold inject_overlap
  by_cases h : k = 0
  · simp [h]
  · simp only [if_neg h]
    match chunks with
    | [] => rfl
    | c :: rest =>
        simp only [List.length_cons, List.length_zipWith]
        omega

theorem inject_overlap_head? (chunks : List (Document α)) (k : Nat) :
    (inject_overlap chunks k).head? = chunks.head? := by
  unfold inject_overlap
  by_cases h : k = 0
  · simp [h]
  · simp only [if_neg h]
    match chunks with
    | [] => rfl
    | c :: rest => rfl

theorem inject_overlap_getElem? (chunks : List (Document α)) (k : Nat)
    (hk : k ≠ 0) (i : Nat) :
    (inject_overlap chunks k)[i + 1]? =
      match chunks[i]?, chunks[i + 1]? with
      | some prev, some cur =>
          some { page_content := lastN k prev.page_content ++ cur.page_content,
                 metadata := cur.metadata }
      | _, _ => none := by
  unfold inject_overlap
  simp only [if_neg hk]
  match chunks with
  | [] => simp
  | c :: rest =>
      simp only [List.getElem?_cons_succ, List.getElem?_zipWith]
      cases h1 : (c :: rest)[i]? <;> cases h2 : rest[i]? <;> rfl

/-! ### Claims C1 and C2 -/

/-- Claim C1: with overlap k > 0 and at least two raw chunks, the sequence
returned by `SemanticOverlapChunker.split_documents` has the same length as
the raw sequence, its first chunk is unchanged, and for every i >= 1 the
content of chunk i is the last k units of the pre-overlap content of chunk
i-1 (the entire pre-overlap content when that chunk holds fewer than k
units) concatenated with the pre-overlap content of chunk i; the window is
always taken from the original pre-overlap predecessor. -/
theorem overlap_injection_correct (c : SemanticOverlapChunker α)
    (docs : List (Document α)) (hk : 0 < c._overlap)
    (_h2 : 2 ≤ (c._base docs).length) :
    (c.split_documents docs).length = (c._base docs).length ∧
    (c.split_documents docs).head? = (c._base docs).head? ∧
    ∀ i : Nat,
      Option.map Document.page_content (c.split_documents docs)[i + 1]? =
        match (c._base docs)[i]?, (c._base docs)[i + 1]? with
        | some prev, some cur =>
            some ((if prev.page_content.length ≤ c._overlap
                   then prev.page_content
                   else prev.page_content.drop
                     (prev.page_content.length - c._overlap))
                  ++ cur.page_content)
        | _, _ => none := by
  have hk' : c._overlap ≠ 0 := by omega
  refine ⟨inject_overlap_length _ _, inject_overlap_head? _ _, fun i => ?_⟩
  show Option.map Document.page_content
      (inject_overlap (c._base docs) c._overlap)[i + 1]? = _
  rw [inject_overlap_getElem? _ _ hk' i]
  cases (c._base docs)[i]? with
  | none => rfl
  | some prev =>
      cases (c._base docs)[i + 1]? with
      | none => rfl
      | some cur => simp [lastN_eq_ite]

/-- Concrete run of C1: base splitter yields [1,2,3] and [4,5] with
overlap 2, so the second emitted chunk is [2,3] ++ [4,5]. -/
theorem overlap_injection_correct_witness :
    Option.map Document.page_content (chunkerW.split_documents docsW)[1]? =
      some [2, 3, 4, 5] := by
  have h := (overlap_injection_correct chunkerW docsW (by decide) (by decide)).2.2 0
  rw [h]
  decide

/-- Claim C2: when the configured overlap is 0,
`SemanticOverlapChunker.split_documents` returns exactly the raw sequence
produced by the underlying base splitter (content and metadata). -/
theorem zero_overlap_identity (c : SemanticOverlapChunker α)
    (docs : List (Document α)) (h : c._overlap = 0) :
    c.split_documents docs = c._base docs := by
  show inject_overlap (c._base docs) c._overlap = c._base docs
  rw [h]
  simp [inject_overlap]

/-- Concrete run of C2: a chunker with overlap 0 returns the base output
unchanged. -/
theorem zero_overlap_identity_witness :
    chunkerW0.split_documents docsW = docsW := by
  have h := zero_overlap_identity chunkerW0 docsW rfl
  rw [h]
  rfl

/-! ### Claims C3 and C9: the Minimum-Chunk-Count Guard -/

/-- Claim C3: on a successful semantic result, `_SafeSemantic.split_documents`
emits that result exactly when it has more than one chunk, and otherwise
re-splits the same input with the deterministic token splitter configured
with chunk_overlap 0 and the same chunk_size, encoding_name and separators
as the config; both outcomes are terminal. -/
theorem safe_semantic_guard (semantic : List (Document α) → Except ε (List (Document α)))
    (cfg : ChunkConfig)
    (rts : RecursiveTokenSplitter → List (Document α) → List (Document α))
    (docs : List (Document α)) (out : List (Document α))
    (h : semantic docs = Except.ok out) :
    (_SafeSemantic.init semantic cfg rts).split_documents docs =
      (if out.length > 1 then Except.ok out
       else Except.ok (rts { encoding_name := cfg.encoding_name,
                             chunk_size := cfg.chunk_size,
                             chunk_overlap := 0,
                             separators := cfg.separators } docs)) := by
  show (match semantic docs with
        | Except.error e => Except.error e
        | Except.ok o =>
            if o.length > 1 then Except.ok o
            else Except.ok (rts { encoding_name := cfg.encoding_name,
                                  chunk_size := cfg.chunk_size,
                                  chunk_overlap := 0,
                                  separators := cfg.separators } docs)) = _
  rw [h]

/-- Concrete run of C3: a one-chunk semantic result triggers the fallback,
whose constructor arguments (chunk_overlap 0, chunk_size 128) show in the
output of the recording splitter behaviour `rtsW`. -/
theorem safe_semantic_guard_witness :
    (_SafeSemantic.init semanticW cfgW rtsW).split_documents docsW =
      Except.ok [{ page_content := [0, 128], metadata := [] }] := by
  have h := safe_semantic_guard semanticW cfgW rtsW docsW
    [{ page_content := [9], metadata := [] }] rfl
  rw [h]
  rfl

/-- Claim C9: when the semantic splitter raises, `_SafeSemantic.split_documents`
propagates the error unmodified, for every possible backup splitter (so the
deterministic fallback is not invoked and no partial result is substituted). -/
theorem safe_semantic_error_propagation
    (semantic : List (Document α) → Except ε (List (Document α)))
    (docs : List (Document α)) (e : ε)
    (h : semantic docs = Except.error e)
    (backup : List (Document α) → List (Document α)) :
    (_SafeSemantic.mk semantic backup).split_documents docs = Except.error e := by
  show (match semantic docs with
        | Except.error e => Except.error e
        | Except.ok o => if o.length > 1 then Except.ok o else Except.ok (backup docs)) = _
  rw [h]

/-- Concrete run of C9: a raising semantic splitter yields exactly its error,
whatever the backup would have returned. -/
theorem safe_semantic_error_propagation_witness :
    (_SafeSemantic.mk semanticErrW (fun _ => [])).split_documents docsW =
      Except.error "rate limit" :=
  safe_semantic_error_propagation semanticErrW docsW "rate limit" rfl (fun _ => [])

/-! ### Claims C4 and C8: the factory -/

/-- Claim C4: `create` selects the pipeline by overlap_unit: characters
gives the deterministic recursive character splitter with the configured
chunk_size and internal overlap 0; tokens gives the semantic splitter
(min_chunk_size = max 8 (chunk_size / 2), with the selected embeddings)
wrapped in the guard with a backup built from the config; both are wrapped
in an Overlap Injector using cfg.chunk_overlap, cfg.encoding_name and
cfg.overlap_unit. -/
theorem create_selects_pipeline (cfg : ChunkConfig) :
    (cfg.overlap_unit = OverlapUnit.characters →
      create cfg =
        { base := SplitterSpec.RecursiveCharacterTextSplitter cfg.chunk_size 0,
          overlap := cfg.chunk_overlap,
          enc_name := cfg.encoding_name,
          unit := cfg.overlap_unit }) ∧
    (cfg.overlap_unit = OverlapUnit.tokens →
      create cfg =
        { base := SplitterSpec.SafeSemanticOf
            { embeddings := _select_embeddings cfg,
              min_chunk_size := max 8 (cfg.chunk_size / 2),
              breakpoint_threshold_amount := cfg.chunk_size }
            { encoding_name := cfg.encoding_name,
              chunk_size := cfg.chunk_size,
              chunk_overlap := 0,
              separators := cfg.separators },
          overlap := cfg.chunk_overlap,
          enc_name := cfg.encoding_name,
          unit := cfg.overlap_unit }) := by
  constructor
  · intro h
    simp [create, h]
  · intro h
    simp [create, h]

/-- Concrete runs of C4 on a characters config and on a tokens config. -/
theorem create_selects_pipeline_witness :
    create cfgCharW =
      { base := SplitterSpec.RecursiveCharacterTextSplitter 100 0,
        overlap := 20, enc_name := "cl100k_base",
        unit := OverlapUnit.characters } ∧
    create cfgTokW =
      { base := SplitterSpec.SafeSemanticOf
          { embeddings := Embeddings.OpenAIEmbeddings "text-embedding-3-small",
            min_chunk_size := 50, breakpoint_threshold_amount := 100 }
          { encoding_name := "cl100k_base", chunk_size := 100,
            chunk_overlap := 0, separators := ["\n\n"] },
        overlap := 20, enc_name := "cl100k_base",
        unit := OverlapUnit.tokens } :=
  ⟨((create_selects_pipeline cfgCharW).1 rfl).trans (by decide),
   ((create_selects_pipeline cfgTokW).2 rfl).trans (by decide)⟩

/-- Claim C8: a configuration with chunk_overlap >= chunk_size is rejected
eagerly at construction time with a ConfigurationError; no object is
returned. -/
theorem overlap_ge_size_rejected (cfg : ChunkConfig)
    (h : cfg.chunk_size ≤ cfg.chunk_overlap) :
    createChecked cfg = Except.error ConfigurationError.overlap_ge_chunk_size := by
  simp [createChecked, validateChunkConfig, if_pos h, Except.map]

/-- Concrete run of C8: overlap 100 with size 100 is rejected. -/
theorem overlap_ge_size_rejected_witness :
    createChecked cfgBadW = Except.error ConfigurationError.overlap_ge_chunk_size :=
  overlap_ge_size_rejected cfgBadW (by decide)

/-! ### Claims C6 and C10: embedding-backend selection -/

/-- Claim C6: the backend is selected solely by presence of a deployment
identifier (a set, non-empty string, which is what Python truthiness tests):
when present, the Azure backend is built with that deployment and the
configured model name; otherwise the public backend is built with the
configured model name, which defaults to "text-embedding-3-small" when
embed_model is unset. -/
theorem select_embeddings_selection (cfg : ChunkConfig) :
    (∀ d : String, cfg.azure_openai_deployment = some d → d ≠ "" →
      _select_embeddings cfg =
        Embeddings.AzureOpenAIEmbeddings
          (strOr cfg.embed_model "text-embedding-3-small") d) ∧
    (cfg.azure_openai_deployment = none →
      _select_embeddings cfg =
        Embeddings.OpenAIEmbeddings
          (strOr cfg.embed_model "text-embedding-3-small")) ∧
    (cfg.embed_model = none →
      strOr cfg.embed_model "text-embedding-3-small" = "text-embedding-3-small") := by
  refine ⟨fun d hd hne => ?_, fun hn => ?_, fun hm => ?_⟩
  · simp [_select_embeddings, hd, hne]
  · simp [_select_embeddings, hn]
  · simp [strOr, hm]

/-- Concrete run of C6: deployment "my-deploy" with model "my-model" gives
the Azure backend with exactly those names. -/
theorem select_embeddings_selection_witness :
    _select_embeddings cfgAzW =
      Embeddings.AzureOpenAIEmbeddings "my-model" "my-deploy" :=
  ((select_embeddings_selection cfgAzW).1 "my-deploy" rfl (by decide)).trans
    (by decide)

/-- Claim C10: with a deployment set and embed_model unset, the Azure backend
is built with the default model name "text-embedding-3-small": the default
applies to the managed backend too. -/
theorem azure_default_model (cfg : ChunkConfig) (d : String)
    (h1 : cfg.azure_openai_deployment = some d) (h2 : d ≠ "")
    (h3 : cfg.embed_model = none) :
    _select_embeddings cfg =
      Embeddings.AzureOpenAIEmbeddings "text-embedding-3-small" d := by
  simp [_select_embeddings, h1, h2, h3, strOr]

/-- Concrete run of C10. -/
theorem azure_default_model_witness :
    _select_embeddings cfgAzDefW =
      Embeddings.AzureOpenAIEmbeddings "text-embedding-3-small" "my-deploy" :=
  azure_default_model cfgAzDefW "my-deploy" rfl (by decide) rfl

/-! ### Claim C7: the convenience path -/

/-- Claim C7: `split_text` is equivalent to wrapping the text in a single
transient document carrying the given metadata (empty when absent) and
running `split_documents` on it: return_docs true gives exactly those
documents, return_docs false gives exactly their contents in order. -/
theorem split_text_refines_split_documents (c : SemanticOverlapChunker α)
    (text : List α) (m : Option Meta) :
    c.split_text text m true =
      Sum.inr (c.split_documents [{ page_content := text, metadata := m.getD [] }]) ∧
    c.split_text text m false =
      Sum.inl ((c.split_documents
        [{ page_content := text, metadata := m.getD [] }]).map
          (fun d => d.page_content)) :=
  ⟨rfl, rfl⟩

/-! ### Claim C5: metadata round-trip -/

theorem exists_of_mem_zipWith {β γ δ : Type} {f : β → γ → δ} {x : δ}
    {as : List β} {bs : List γ} (h : x ∈ List.zipWith f as bs) :
    ∃ a ∈ as, ∃ b ∈ bs, x = f a b := by
  induction as generalizing bs with
  | nil => simp at h
  | cons a as ih =>
      cases bs with
      | nil => simp at h
      | cons b bs =>
          rw [List.zipWith_cons_cons] at h
          rcases List.mem_cons.mp h with h | h
          · exact ⟨a, List.mem_cons_self _ _, b, List.mem_cons_self _ _, h⟩
          · rcases ih h with ⟨a', ha', b', hb', hx⟩
            exact ⟨a', List.mem_cons_of_mem _ ha',
                   b', List.mem_cons_of_mem _ hb', hx⟩

theorem metadata_of_mem_inject_overlap {d : Document α}
    {chunks : List (Document α)} {k : Nat}
    (h : d ∈ inject_overlap chunks k) :
    ∃ c ∈ chunks, d.metadata = c.metadata := by
  unfold inject_overlap at h
  by_cases hk : k = 0
  · rw [if_pos hk] at h
    exact ⟨d, h, rfl⟩
  · rw [if_neg hk] at h
    cases chunks with
    | nil => simp at h
    | cons c rest =>
        rcases List.mem_cons.mp h with h | h
        · exact ⟨c, List.mem_cons_self _ _, by rw [h]⟩
        · rcases exists_of_mem_zipWith h with ⟨a, _, b, hb, hx⟩
          exact ⟨b, List.mem_cons_of_mem _ hb, by rw [hx]⟩

/-- Claim C5: for both calling conventions, every emitted chunk carries the
metadata of its source document unchanged, provided the base splitter does
so (splitting and overlap injection modify content only). -/
theorem metadata_round_trip (c : SemanticOverlapChunker α)
    (docs : List (Document α)) (m : Meta) (text : List α) (mo : Option Meta)
    (hbase : ∀ d ∈ c._base docs, d.metadata = m)
    (hbase2 : ∀ d ∈ c._base [{ page_content := text, metadata := mo.getD [] }],
        d.metadata = mo.getD []) :
    (∀ d ∈ c.split_documents docs, d.metadata = m) ∧
    (∀ ds, c.split_text text mo true = Sum.inr ds →
        ∀ d ∈ ds, d.metadata = mo.getD []) := by
  constructor
  · intro d hd
    rcases metadata_of_mem_inject_overlap hd with ⟨c', hc', he⟩
    exact he.trans (hbase c' hc')
  · intro ds hds d hd
    have hinr : c.split_text text mo true =
        Sum.inr (c.split_documents
          [{ page_content := text, metadata := mo.getD [] }]) := rfl
    rw [hinr] at hds
    injection hds with hds
    rw [← hds] at hd
    rcases metadata_of_mem_inject_overlap hd with ⟨c', hc', he⟩
    exact he.trans (hbase2 c' hc')

/-- Concrete run of C5: the second emitted chunk of `chunkerMW` keeps the
source metadata. -/
theorem metadata_round_trip_witness :
    (Document.mk [1, 2] [("k", "v")] : Document Nat).metadata = [("k", "v")] :=
  (metadata_round_trip chunkerMW docsW [("k", "v")] [7] (some [("k", "v")])
    (by decide) (by decide)).1 _ (by decide)

end Ingenious
